import Mathlib

/-!
Verification of the International Standard Atmosphere learning tool.

The repository ships a React frontend (`src/frontend`) that validates user
input and calls a numerical backend over HTTP.  The frontend code is embedded
below directly from the source files; the backend engine (layer table, ISA
evaluation, altitude conversion, optimizer gate, grid sampler) is not part of
the checked-out sources, so those parts are modelled from the specification
and are marked as such in their doc comments.

Numbers typed by the user go through JavaScript `parseFloat`; we model a
numeric input field as either empty, a non-numeric string (`parseFloat`
returns NaN), or a finite number, represented by an exact rational.
-/

namespace Atmos

/-- A value in a frontend input field: empty string, a string `parseFloat`
cannot parse (NaN), or a finite number. -/
inductive NumInput where
  | empty : NumInput
  | nan : NumInput
  | num : ℚ → NumInput
deriving DecidableEq

/-- JavaScript `parseFloat` semantics on a `NumInput`: `none` means NaN. -/
def parseFloat : NumInput → Option ℚ
  | .num q => some q
  | _ => none

/-- The numeric value actually sent in a request body (only ever used after
validation has established that the input parses). -/
def numVal (i : NumInput) : ℚ := (parseFloat i).getD 0

/-- What a frontend handler does: record an error message, or issue an API
request with a numeric payload. -/
inductive FrontAction where
  | showError : String → FrontAction
  | apiRequest : List ℚ → FrontAction
deriving DecidableEq

/-- `validateInput` from `ISACalculator` (src/frontend/src/App.jsx:85-91):
parseFloat, reject NaN, reject negative, reject above 86,000 m. -/
def validateInput (alt : NumInput) : Option String :=
  match parseFloat alt with
  | none => some "Please enter a valid number"
  | some num =>
    if num < 0 then some "Altitude must be non-negative"
    else if num > 86000 then some "Altitude must be ≤ 86,000 m (ISA limit)"
    else none

/-- `calculateISA` from `ISACalculator` (src/frontend/src/App.jsx:93-118):
empty field short-circuits, then validation; a request is posted only when
validation returns no error. -/
def calculateISA (altitude : NumInput) : FrontAction :=
  match altitude with
  | .empty => .showError "Please enter an altitude value"
  | i =>
    match validateInput i with
    | some e => .showError e
    | none => .apiRequest [numVal i]

/-- `validateRange` from `OptimizationExplorer`
(src/frontend/src/components/OptimizationExplorer.jsx:21-32). -/
def validateRange (min max : NumInput) : Option String :=
  match parseFloat min, parseFloat max with
  | none, _ => some "Please enter valid numbers for both altitudes"
  | _, none => some "Please enter valid numbers for both altitudes"
  | some minNum, some maxNum =>
    if minNum < 0 then some "Minimum altitude must be non-negative"
    else if maxNum > 86000 then some "Maximum altitude must be ≤ 86,000 m (ISA limit)"
    else if minNum ≥ maxNum then some "Maximum altitude must be greater than minimum altitude"
    else if maxNum - minNum < 1000 then
      some "Altitude range should be at least 1,000 m for meaningful optimization"
    else none

/-- The `optimize` click handler from `OptimizationExplorer`
(src/frontend/src/components/OptimizationExplorer.jsx:34-55): validation
failure records the message and returns before the POST. -/
def optimize (minAlt maxAlt : NumInput) : FrontAction :=
  match validateRange minAlt maxAlt with
  | some e => .showError e
  | none => .apiRequest [numVal minAlt, numVal maxAlt]

/-- `validateVisualizationInputs` from `VisualizationDashboard`
(src/frontend/src/components/VisualizationDashboard.jsx:17-30). -/
def validateVisualizationInputs (minAlt maxAlt optimalBeta : NumInput) : Option String :=
  match parseFloat minAlt, parseFloat maxAlt, parseFloat optimalBeta with
  | none, _, _ => some "Please enter valid altitude values"
  | _, none, _ => some "Please enter valid altitude values"
  | some _, some _, none => some "Please enter a valid beta value"
  | some minNum, some maxNum, some betaNum =>
    if minNum < 0 then some "Minimum altitude must be non-negative"
    else if maxNum > 86000 then some "Maximum altitude must be ≤ 86,000 m"
    else if minNum ≥ maxNum then some "Maximum altitude must be greater than minimum"
    else if betaNum < 1000 ∨ betaNum > 20000 then
      some "Beta should be between 1,000 and 20,000 m"
    else none

/-- `generateHeatmap` from `VisualizationDashboard`
(src/frontend/src/components/VisualizationDashboard.jsx:32-54); the request
carries the parsed altitudes plus the fixed 30 × 30 grid size. -/
def generateHeatmap (minAlt maxAlt optimalBeta : NumInput) : FrontAction :=
  match validateVisualizationInputs minAlt maxAlt optimalBeta with
  | some e => .showError e
  | none => .apiRequest [numVal minAlt, numVal maxAlt, 30, 30]

/-- `generateComparison` from `VisualizationDashboard`
(src/frontend/src/components/VisualizationDashboard.jsx:56-77). -/
def generateComparison (minAlt maxAlt optimalBeta : NumInput) : FrontAction :=
  match validateVisualizationInputs minAlt maxAlt optimalBeta with
  | some e => .showError e
  | none => .apiRequest [numVal minAlt, numVal maxAlt, numVal optimalBeta]

/-- Error raised by the optimizer on a degenerate or too-narrow range. -/
inductive InvalidRangeError where
  | tooNarrowOrInvalid : InvalidRangeError
deriving DecidableEq

/-- Modelled from the spec: the precondition gate of
`ScaleHeightOptimizer.optimize` (spec §4.6); `src/optimizer.py` is not among
the checked-out sources.  The spec requires
`0 ≤ min_altitude_m < max_altitude_m ≤ 86,000` and a range of at least
1,000 m, rejecting everything else with `InvalidRangeError`. -/
def optimizeGate (min_altitude_m max_altitude_m : ℚ) : Except InvalidRangeError Unit :=
  if 0 ≤ min_altitude_m ∧ min_altitude_m < max_altitude_m ∧ max_altitude_m ≤ 86000 ∧
      1000 ≤ max_altitude_m - min_altitude_m then
    .ok ()
  else .error .tooNarrowOrInvalid

/-- `pct_error` of the error analyzer (spec §4.5); the backend analyzer module
is not among the checked-out sources, the formula is also used verbatim by the
frontend to label errors. -/
def pct_error (approx reference : ℚ) : ℚ := (approx - reference) / reference * 100

/-- The verdict shown by the heatmap tooltip
(src/frontend/src/components/VisualizationDashboard.jsx:359-361):
a strictly positive error is labelled as an overestimate. -/
def tooltipVerdict (e : ℚ) : String :=
  if e > 0 then "Overestimate" else "Underestimate"

/-- The heatmap `Grid` payload as the frontend receives it: `betas`,
`altitudes`, and the dense matrix `errors[altitude_index][beta_index]`
(spec §3). -/
structure Grid where
  betas : List ℚ
  altitudes : List ℚ
  errors : List (List ℚ)
deriving DecidableEq

/-- `heatmapData.errors[aIdx][bIdx]` with JavaScript-style indexing. -/
def errAt (g : Grid) (aIdx bIdx : ℕ) : ℚ := (g.errors.getD aIdx []).getD bIdx 0

/-- One scatter point pushed by `prepareHeatmapPoints`. -/
structure HeatPoint where
  beta : ℚ
  altitude : ℚ
  errorPct : ℚ
deriving DecidableEq

/-- The scatter point built for cell `(bIdx, aIdx)` by the dashboard's
`prepareHeatmapPoints`: the raw `alt` value is used as the plotted altitude. -/
def heatCell (g : Grid) (bIdx aIdx : ℕ) : HeatPoint :=
  ⟨g.betas.getD bIdx 0, g.altitudes.getD aIdx 0, errAt g aIdx bIdx⟩

/-- The scatter point built for cell `(bIdx, aIdx)` by the `App.jsx` copy of
`prepareHeatmapPoints`: the plotted altitude is `alt / 1000`. -/
def heatCellApp (g : Grid) (bIdx aIdx : ℕ) : HeatPoint :=
  ⟨g.betas.getD bIdx 0, g.altitudes.getD aIdx 0 / 1000, errAt g aIdx bIdx⟩

/-- `prepareHeatmapPoints` from
src/frontend/src/components/VisualizationDashboard.jsx:79-97: iterates betas
(outer) and altitudes (inner), keeps a cell only when `|error| < 50`, and uses
the raw `alt` value as the plotted altitude (its comment reads
`Already in km from backend`). -/
def prepareHeatmapPointsDashboard (g : Grid) : List HeatPoint :=
  (List.range g.betas.length).flatMap fun bIdx =>
    (List.range g.altitudes.length).filterMap fun aIdx =>
      if |errAt g aIdx bIdx| < 50 then some (heatCell g bIdx aIdx) else none

/-- `prepareHeatmapPoints` from the copy of the dashboard bundled in
src/frontend/src/App.jsx:361-379: identical traversal and filter, but the
plotted altitude is `alt / 1000` (its comment reads
`Convert to km for display`). -/
def prepareHeatmapPointsApp (g : Grid) : List HeatPoint :=
  (List.range g.betas.length).flatMap fun bIdx =>
    (List.range g.altitudes.length).filterMap fun aIdx =>
      if |errAt g aIdx bIdx| < 50 then some (heatCellApp g bIdx aIdx) else none

/-- One CSV row written by `exportHeatmapData`. -/
structure HeatCsvRow where
  betaM : ℚ
  altitudeM : ℚ
  altitudeKm : ℚ
  errorPct : ℚ
deriving DecidableEq

/-- The CSV row built for cell `(bIdx, aIdx)` by `exportHeatmapData`. -/
def csvRow (g : Grid) (bIdx aIdx : ℕ) : HeatCsvRow :=
  ⟨g.betas.getD bIdx 0, g.altitudes.getD aIdx 0,
    g.altitudes.getD aIdx 0 / 1000, errAt g aIdx bIdx⟩

/-- `exportHeatmapData` from
src/frontend/src/components/VisualizationDashboard.jsx:116-144: every cell is
written, with the raw altitude in the `Altitude (m)` column and `alt / 1000`
in the `Altitude (km)` column. -/
def exportHeatmapData (g : Grid) : List HeatCsvRow :=
  (List.range g.betas.length).flatMap fun bIdx =>
    (List.range g.altitudes.length).map fun aIdx => csvRow g bIdx aIdx

/-- Every cell of a `Grid`, in the traversal order shared by
`prepareHeatmapPoints` and `exportHeatmapData` (betas outer, altitudes
inner), with the raw altitude value. -/
def allHeatCells (g : Grid) : List HeatPoint :=
  (List.range g.betas.length).flatMap fun bIdx =>
    (List.range g.altitudes.length).map fun aIdx => heatCell g bIdx aIdx

/-- A one-cell grid as the backend would serve it for spec §6 units
(altitudes in meters): β = 8000 m, altitude = 20,000 m, error 0 %. -/
def meterGrid : Grid := ⟨[8000], [20000], [[0]]⟩

/-! ## The engine, modelled from the spec

The numerical engine (`src/isa_calculator.py`, `src/optimizer.py`,
`src/visualizer.py` in the repository's own architecture notes) is not among
the checked-out sources; the definitions below follow spec §4.1-§4.7.
-/

/-- Modelled from the spec: `AltitudeConverter.to_geopotential` (spec §4.2),
`H = r·h/(r+h)` with `r = 6,356,766 m`; the converter module is not among the
checked-out sources.  Exact rational arithmetic. -/
def to_geopotential (geometric_m : ℚ) : ℚ :=
  6356766 * geometric_m / (6356766 + geometric_m)

/-- Modelled from the spec: `AltitudeConverter.to_geometric` (spec §4.2),
`h = r·H/(r-H)`; the converter module is not among the checked-out sources. -/
def to_geometric (geopotential_m : ℚ) : ℚ :=
  6356766 * geopotential_m / (6356766 - geopotential_m)

/-- `LayerDefinition` record of the layer table (spec §3). -/
structure LayerDefinition where
  base_geopotential_altitude_m : ℝ
  base_temperature_K : ℝ
  lapse_rate_K_per_m : ℝ
  base_pressure_Pa : ℝ

/-- `AtmosphericState` value object (spec §3). -/
structure AtmosphericState where
  geometric_altitude_m : ℝ
  geopotential_altitude_m : ℝ
  temperature_K : ℝ
  pressure_Pa : ℝ
  density_kg_m3 : ℝ
  speed_of_sound_m_s : ℝ

/-- `DomainError`: altitude outside [0, 86,000 m] (spec §7). -/
inductive DomainError where
  | outOfRange : DomainError
deriving DecidableEq

/-- Standard gravity `g0 = 9.80665 m/s²` (spec §4.3). -/
def g0 : ℝ := 9.80665

/-- Molar mass of air `M = 0.0289644 kg/mol` (spec §4.3). -/
def molarMassAir : ℝ := 0.0289644

/-- Universal gas constant `R = 8.31432 J/(mol·K)` (spec §4.3). -/
def gasConstant : ℝ := 8.31432

/-- Adiabatic index `γ = 1.4` (spec §4.3). -/
def adiabaticIndex : ℝ := 1.4

/-- Sea-level pressure `P0 = 101,325 Pa` (spec §4.3). -/
def seaLevelPressure : ℝ := 101325

noncomputable section

/-- Modelled from the spec: the two analytic pressure branches of
`ReferenceAtmosphereModel.evaluate` (spec §4.3, step 3) applied inside one
layer — isothermal `P = P_b · exp(-g0·M·(h-h_b)/(R·T_b))`, gradient
`P = P_b · (T_b/T)^(g0·M/(R·L_b))`. -/
def pressureInLayer (L : LayerDefinition) (h : ℝ) : ℝ :=
  if L.lapse_rate_K_per_m = 0 then
    L.base_pressure_Pa *
      Real.exp (-(g0 * molarMassAir * (h - L.base_geopotential_altitude_m)) /
        (gasConstant * L.base_temperature_K))
  else
    L.base_pressure_Pa *
      Real.rpow
        (L.base_temperature_K /
          (L.base_temperature_K +
            L.lapse_rate_K_per_m * (h - L.base_geopotential_altitude_m)))
        (g0 * molarMassAir / (gasConstant * L.lapse_rate_K_per_m))

/-- Modelled from the spec: layer 0 of the 8-layer ISO 2533 table (spec §3,
§4.1; the layer-table module is not among the checked-out sources), base
0 m, 288.15 K, lapse −0.0065 K/m, base pressure 101,325 Pa. -/
def layer0 : LayerDefinition := ⟨0, 288.15, -0.0065, 101325⟩

/-- Layer 1 (11,000 m, isothermal); its base pressure is derived analytically
from layer 0's closing value (continuity invariant, spec §3). -/
def layer1 : LayerDefinition := ⟨11000, 216.65, 0, pressureInLayer layer0 11000⟩

/-- Layer 2 (20,000 m, +0.001 K/m). -/
def layer2 : LayerDefinition := ⟨20000, 216.65, 0.001, pressureInLayer layer1 20000⟩

/-- Layer 3 (32,000 m, +0.0028 K/m). -/
def layer3 : LayerDefinition := ⟨32000, 228.65, 0.0028, pressureInLayer layer2 32000⟩

/-- Layer 4 (47,000 m, isothermal). -/
def layer4 : LayerDefinition := ⟨47000, 270.65, 0, pressureInLayer layer3 47000⟩

/-- Layer 5 (51,000 m, −0.0028 K/m). -/
def layer5 : LayerDefinition := ⟨51000, 270.65, -0.0028, pressureInLayer layer4 51000⟩

/-- Layer 6 (71,000 m, −0.002 K/m). -/
def layer6 : LayerDefinition := ⟨71000, 214.65, -0.002, pressureInLayer layer5 71000⟩

/-- Layer 7 (84,852 m, isothermal, up to the 86,000 m validity limit). -/
def layer7 : LayerDefinition := ⟨84852, 186.946, 0, pressureInLayer layer6 84852⟩

/-- Modelled from the spec: `LayerTable.layer_for` selection policy — the
highest-indexed layer whose base geopotential altitude does not exceed the
query altitude (spec §4.1); total on ℝ, domain checking is done by the
caller. -/
def layer_for (h : ℝ) : LayerDefinition :=
  if h < 11000 then layer0
  else if h < 20000 then layer1
  else if h < 32000 then layer2
  else if h < 47000 then layer3
  else if h < 51000 then layer4
  else if h < 71000 then layer5
  else if h < 84852 then layer6
  else layer7

/-- Temperature `T = T_b + L_b·(h - h_b)` in the resolved layer
(spec §4.3, step 2). -/
def temperature_at (h : ℝ) : ℝ :=
  (layer_for h).base_temperature_K +
    (layer_for h).lapse_rate_K_per_m * (h - (layer_for h).base_geopotential_altitude_m)

/-- Pressure at a geopotential altitude via the resolved layer
(spec §4.3, step 3). -/
def pressure_at (h : ℝ) : ℝ := pressureInLayer (layer_for h) h

/-- `to_geopotential` over ℝ, used inside the engine (spec §4.2). -/
def toGeopotentialR (h : ℝ) : ℝ := 6356766 * h / (6356766 + h)

/-- Modelled from the spec: `evaluate_state(altitude_m)` (spec §6, §4.3);
the engine module is not among the checked-out sources.  Fails with
`DomainError` when the altitude is below 0 or above the table's 86,000 m
upper bound, otherwise converts to geopotential altitude and assembles the
`AtmosphericState` (density by the ideal-gas relation, speed of sound
`sqrt(γ·R·T/M)`). -/
def evaluate_state (altitude_m : ℝ) : Except DomainError AtmosphericState :=
  if altitude_m < 0 ∨ 86000 < altitude_m then .error .outOfRange
  else
    .ok ⟨altitude_m, toGeopotentialR altitude_m,
      temperature_at (toGeopotentialR altitude_m),
      pressure_at (toGeopotentialR altitude_m),
      pressure_at (toGeopotentialR altitude_m) * molarMassAir /
        (gasConstant * temperature_at (toGeopotentialR altitude_m)),
      Real.sqrt (adiabaticIndex * gasConstant *
        temperature_at (toGeopotentialR altitude_m) / molarMassAir)⟩

/-- `pct_error` over ℝ for the grid sampler (spec §4.5). -/
def pctErrorR (approx reference : ℝ) : ℝ := (approx - reference) / reference * 100

/-- Modelled from the spec: `ExponentialModel.pressure` with the default base
pressure `P0` (spec §4.4): `P = P0 · exp(-altitude_m/beta_m)`; the module is
not among the checked-out sources. -/
def exponential_pressure (altitude_m beta_m : ℝ) : ℝ :=
  seaLevelPressure * Real.exp (-altitude_m / beta_m)

/-- `n` uniform samples across `[lo, hi]` (numpy `linspace`). -/
def linspace (lo hi : ℝ) (n : ℕ) : List ℝ :=
  (List.range n).map fun i : ℕ => lo + (hi - lo) * (i : ℝ) / ((n : ℝ) - 1)

/-- The `Grid` produced by the grid sampler, with real-valued entries. -/
structure GridR where
  betas : List ℝ
  altitudes : List ℝ
  errors : List (List ℝ)

/-- Modelled from the spec: `GridSampler.heatmap` (spec §4.7); the module is
not among the checked-out sources.  `num_beta` beta samples over the fixed
[5,000, 12,000] beta domain, `num_alt` altitude samples over the requested
range, and the dense matrix `errors[altitude_index][beta_index]` of
`pct_error` between the exponential and the reference pressure. -/
def heatmap (min_altitude_m max_altitude_m : ℝ) (num_beta num_alt : ℕ) : GridR :=
  ⟨linspace 5000 12000 num_beta,
    linspace min_altitude_m max_altitude_m num_alt,
    (linspace min_altitude_m max_altitude_m num_alt).map fun h =>
      (linspace 5000 12000 num_beta).map fun b =>
        pctErrorR (exponential_pressure h b) (pressure_at h)⟩

end

/-! ## Theorems -/

/-- The frontend range validator accepts exactly the spec's precondition. -/
theorem validateRange_none_iff (mn mx : ℚ) :
    validateRange (.num mn) (.num mx) = none ↔
      0 ≤ mn ∧ mn < mx ∧ mx ≤ 86000 ∧ 1000 ≤ mx - mn := by
  simp only [validateRange, parseFloat]
  split_ifs with h1 h2 h3 h4
  · refine iff_of_false (by simp) ?_
    rintro ⟨c1, -, -, -⟩
    linarith
  · refine iff_of_false (by simp) ?_
    rintro ⟨-, -, c3, -⟩
    linarith
  · refine iff_of_false (by simp) ?_
    rintro ⟨-, c2, -, -⟩
    linarith
  · refine iff_of_false (by simp) ?_
    rintro ⟨-, -, -, c4⟩
    linarith
  · push_neg at h1 h2 h3 h4
    exact iff_of_true rfl ⟨h1, h3, h2, by linarith⟩

/-- C1: `optimize(min, max)` fails with `InvalidRangeError` exactly when
`0 ≤ min < max ≤ 86,000` is violated or the range is narrower than 1,000 m;
`optimize(5000, 5500)` is rejected, and the frontend `validateRange` accepts
precisely the inputs the gate accepts. -/
theorem optimize_invalid_range_exactness :
    (∀ mn mx : ℚ, optimizeGate mn mx = Except.ok () ↔
        (0 ≤ mn ∧ mn < mx ∧ mx ≤ 86000 ∧ 1000 ≤ mx - mn)) ∧
    (∀ mn mx : ℚ, validateRange (.num mn) (.num mx) = none ↔
        optimizeGate mn mx = Except.ok ()) ∧
    optimizeGate 5000 5500 = Except.error InvalidRangeError.tooNarrowOrInvalid ∧
    validateRange (.num 5000) (.num 5500) =
      some "Altitude range should be at least 1,000 m for meaningful optimization" := by
  have hgate : ∀ mn mx : ℚ, optimizeGate mn mx = Except.ok () ↔
      (0 ≤ mn ∧ mn < mx ∧ mx ≤ 86000 ∧ 1000 ≤ mx - mn) := by
    intro mn mx
    unfold optimizeGate
    split_ifs with h <;> simp [h]
  refine ⟨hgate, ?_, ?_, by norm_num [validateRange, parseFloat]⟩
  · intro mn mx
    rw [validateRange_none_iff, hgate]
  · unfold optimizeGate
    rw [if_neg]
    rintro ⟨-, -, -, c4⟩
    norm_num at c4

/-- C7: `pct_error` follows the formula `(approx - reference)/reference·100`
and, for a positive reference, is strictly positive exactly when the
approximation overestimates; the dashboard tooltip labels exactly those
errors `Overestimate`. -/
theorem pct_error_sign_convention (approx reference : ℚ) (h : 0 < reference) :
    pct_error approx reference = (approx - reference) / reference * 100 ∧
    (0 < pct_error approx reference ↔ reference < approx) ∧
    (tooltipVerdict (pct_error approx reference) = "Overestimate" ↔
      reference < approx) := by
  have key : pct_error approx reference = (approx - reference) * 100 / reference := by
    unfold pct_error
    ring
  have sign : 0 < pct_error approx reference ↔ reference < approx := by
    rw [key, div_pos_iff]
    constructor
    · rintro (⟨hn, -⟩ | ⟨-, hd⟩)
      · linarith
      · linarith
    · intro hlt
      exact Or.inl ⟨by linarith, h⟩
  refine ⟨rfl, sign, ?_⟩
  unfold tooltipVerdict
  split_ifs with hp
  · exact iff_of_true rfl (sign.mp hp)
  · refine iff_of_false ?_ fun hlt => hp (sign.mpr hlt)
    intro hcontra
    exact absurd hcontra (by decide)

/-- Witness for `pct_error_sign_convention` at `(110, 100)`. -/
theorem pct_error_sign_convention_witness :
    0 < (100 : ℚ) ∧
      (pct_error 110 100 = (110 - 100) / 100 * 100 ∧
        (0 < pct_error 110 100 ↔ (100 : ℚ) < 110) ∧
        (tooltipVerdict (pct_error 110 100) = "Overestimate" ↔ (100 : ℚ) < 110)) :=
  ⟨by norm_num, pct_error_sign_convention 110 100 (by norm_num)⟩

/-- The calculator's altitude validator accepts exactly [0, 86,000]. -/
theorem validateInput_none_iff (q : ℚ) :
    validateInput (.num q) = none ↔ 0 ≤ q ∧ q ≤ 86000 := by
  simp only [validateInput, parseFloat]
  split_ifs with h1 h2
  · refine iff_of_false (by simp) ?_
    rintro ⟨c1, -⟩
    linarith
  · refine iff_of_false (by simp) ?_
    rintro ⟨-, c2⟩
    linarith
  · push_neg at h1 h2
    exact iff_of_true rfl ⟨h1, h2⟩

/-- C8: the calculator's validator accepts the closed interval [0, 86,000]
exactly (both boundary values included), and `calculateISA` shows the
validation error and never issues a request when validation fails. -/
theorem calculator_boundary_and_gate :
    validateInput (.num 0) = none ∧
    validateInput (.num 86000) = none ∧
    (∀ q : ℚ, validateInput (.num q) = none ↔ 0 ≤ q ∧ q ≤ 86000) ∧
    (∀ i e, validateInput i = some e → i ≠ .empty →
      calculateISA i = .showError e) ∧
    (∀ i p, calculateISA i = .apiRequest p → validateInput i = none) := by
  refine ⟨by norm_num [validateInput, parseFloat], by norm_num [validateInput, parseFloat],
    validateInput_none_iff, ?_, ?_⟩
  · intro i e hv hne
    cases i with
    | empty => exact absurd rfl hne
    | nan => simp [calculateISA, hv]
    | num q => simp [calculateISA, hv]
  · intro i p hreq
    cases i with
    | empty => simp [calculateISA] at hreq
    | nan => simp [calculateISA, validateInput, parseFloat] at hreq
    | num q =>
      cases hv : validateInput (.num q) with
      | none => rfl
      | some e => simp [calculateISA, hv] at hreq

/-- Witness for `calculator_boundary_and_gate`: a failing input is shown as
an error, a valid one produces the request. -/
theorem calculator_boundary_and_gate_witness :
    validateInput (.num (-5)) = some "Altitude must be non-negative" ∧
    calculateISA (.num (-5)) = .showError "Altitude must be non-negative" ∧
    calculateISA (.num 5000) = .apiRequest [5000] ∧
    validateInput (.num 5000) = none :=
  ⟨by norm_num [validateInput, parseFloat],
    calculator_boundary_and_gate.2.2.2.1 (.num (-5)) _
      (by norm_num [validateInput, parseFloat]) (by decide),
    by norm_num [calculateISA, validateInput, parseFloat, numVal],
    calculator_boundary_and_gate.2.2.2.2 (.num 5000) [5000]
      (by norm_num [calculateISA, validateInput, parseFloat, numVal])⟩

/-- C3: the two consumers of the same heatmap `Grid` disagree about the unit
of its `altitudes` entries.  On a backend grid whose altitude entry is the
meter value 20,000 (spec §6: grid altitudes are meters), the dashboard's
`prepareHeatmapPoints` plots 20,000 on its kilometers axis, while the CSV
export and the `App.jsx` copy divide by 1,000 and read 20 km. -/
theorem heatmap_altitude_unit_mismatch :
    (prepareHeatmapPointsDashboard meterGrid).map HeatPoint.altitude = [20000] ∧
    (prepareHeatmapPointsApp meterGrid).map HeatPoint.altitude = [20] ∧
    (exportHeatmapData meterGrid).map HeatCsvRow.altitudeKm = [20] ∧
    (exportHeatmapData meterGrid).map HeatCsvRow.altitudeM = [20000] := by
  refine ⟨?_, ?_, ?_, ?_⟩ <;>
    norm_num [prepareHeatmapPointsDashboard, prepareHeatmapPointsApp, exportHeatmapData,
      meterGrid, heatCell, heatCellApp, csvRow, errAt, List.range_succ, List.flatMap_cons,
      List.flatMap_nil, List.filterMap_cons, List.filterMap_nil]

/-- The fused build-and-filter of `prepareHeatmapPoints` equals building every
cell and filtering afterwards. -/
theorem filterMap_ite_cells (g : Grid) (bIdx : ℕ) (l : List ℕ) :
    (l.filterMap fun aIdx =>
        if |errAt g aIdx bIdx| < 50 then some (heatCell g bIdx aIdx) else none) =
      (l.map fun aIdx => heatCell g bIdx aIdx).filter fun pt => |pt.errorPct| < 50 := by
  induction l with
  | nil => rfl
  | cons a t ih =>
    have hp : (heatCell g bIdx a).errorPct = errAt g a bIdx := rfl
    by_cases hc : |errAt g a bIdx| < 50 <;>
      simp [List.filterMap_cons, List.filter_cons, hp, hc, ih]

/-- C9: the dashboard's `prepareHeatmapPoints` renders exactly the grid cells
with `|error| < 50` (strict), while `exportHeatmapData` retains every cell of
the grid, errors of any magnitude included. -/
theorem heatmap_render_filter (g : Grid) :
    prepareHeatmapPointsDashboard g =
      (allHeatCells g).filter (fun pt => |pt.errorPct| < 50) ∧
    (exportHeatmapData g).length = g.betas.length * g.altitudes.length ∧
    (exportHeatmapData g).map HeatCsvRow.errorPct =
      (allHeatCells g).map HeatPoint.errorPct := by
  refine ⟨?_, ?_, ?_⟩
  · unfold prepareHeatmapPointsDashboard allHeatCells
    rw [List.filter_flatMap]
    exact congrArg (List.flatMap (List.range g.betas.length))
      (funext fun bIdx => filterMap_ite_cells g bIdx _)
  · unfold exportHeatmapData
    simp [Function.comp_def]
  · simp only [exportHeatmapData, allHeatCells, List.map_flatMap, List.map_map]
    rfl

/-- C10: every user-facing validator parses with `parseFloat` and rejects a
NaN before any API call: whenever an input fails to parse, the validator
returns an error and the corresponding handler never issues a request. -/
theorem nan_never_requested :
    ∀ i : NumInput, parseFloat i = none →
      validateInput i ≠ none ∧
      (∀ j, validateRange i j ≠ none ∧ validateRange j i ≠ none) ∧
      (∀ j k, validateVisualizationInputs i j k ≠ none ∧
        validateVisualizationInputs j i k ≠ none ∧
        validateVisualizationInputs j k i ≠ none) ∧
      (∀ p, calculateISA i ≠ .apiRequest p) ∧
      (∀ j p, optimize i j ≠ .apiRequest p ∧ optimize j i ≠ .apiRequest p) ∧
      (∀ j k p, generateHeatmap i j k ≠ .apiRequest p ∧
        generateHeatmap j i k ≠ .apiRequest p ∧
        generateHeatmap j k i ≠ .apiRequest p ∧
        generateComparison i j k ≠ .apiRequest p ∧
        generateComparison j i k ≠ .apiRequest p ∧
        generateComparison j k i ≠ .apiRequest p) := by
  intro i hi
  have hvi : validateInput i ≠ none := by
    simp [validateInput, hi]
  have hvr1 : ∀ j, validateRange i j ≠ none := by
    intro j
    simp [validateRange, hi]
  have hvr2 : ∀ j, validateRange j i ≠ none := by
    intro j
    cases hj : parseFloat j <;> simp [validateRange, hi, hj]
  have hvv : ∀ j k, validateVisualizationInputs i j k ≠ none ∧
      validateVisualizationInputs j i k ≠ none ∧
      validateVisualizationInputs j k i ≠ none := by
    intro j k
    refine ⟨?_, ?_, ?_⟩ <;>
      (cases hj : parseFloat j <;> cases hk : parseFloat k <;>
        simp [validateVisualizationInputs, hi, hj, hk])
  have hci : ∀ p, calculateISA i ≠ .apiRequest p := by
    intro p
    cases i with
    | empty => simp [calculateISA]
    | nan => simp [calculateISA, validateInput, parseFloat]
    | num q => simp [parseFloat] at hi
  have hopt : ∀ j p, optimize i j ≠ .apiRequest p ∧ optimize j i ≠ .apiRequest p := by
    intro j p
    obtain ⟨e1, he1⟩ := Option.ne_none_iff_exists'.mp (hvr1 j)
    obtain ⟨e2, he2⟩ := Option.ne_none_iff_exists'.mp (hvr2 j)
    constructor <;> simp [optimize, he1, he2]
  refine ⟨hvi, fun j => ⟨hvr1 j, hvr2 j⟩, hvv, hci, hopt, ?_⟩
  intro j k p
  obtain ⟨a1, ha1⟩ := Option.ne_none_iff_exists'.mp (hvv j k).1
  obtain ⟨a2, ha2⟩ := Option.ne_none_iff_exists'.mp (hvv j k).2.1
  obtain ⟨a3, ha3⟩ := Option.ne_none_iff_exists'.mp (hvv j k).2.2
  refine ⟨?_, ?_, ?_, ?_, ?_, ?_⟩ <;>
    simp [generateHeatmap, generateComparison, ha1, ha2, ha3]

/-- Witness for `nan_never_requested` at a NaN calculator input. -/
theorem nan_never_requested_witness :
    parseFloat NumInput.nan = none ∧
      validateInput NumInput.nan ≠ none ∧
      calculateISA NumInput.nan ≠ .apiRequest [0] :=
  ⟨rfl, (nan_never_requested .nan rfl).1,
    (nan_never_requested .nan rfl).2.2.2.1 [0]⟩

/-- C2: `evaluate_state` fails with `DomainError` for every altitude strictly
below 0 or strictly above 86,000 m and succeeds with an `AtmosphericState` on
the whole closed interval; `evaluate_state(-1)` and `evaluate_state(90000)`
both fail, and the frontend's `validateInput` accepts exactly the altitudes
the engine accepts. -/
theorem evaluate_state_domain_exactness :
    (∀ a : ℝ, (∃ s, evaluate_state a = Except.ok s) ↔ (0 ≤ a ∧ a ≤ 86000)) ∧
    (∀ q : ℚ, validateInput (.num q) = none ↔
      ∃ s, evaluate_state (q : ℝ) = Except.ok s) ∧
    evaluate_state (-1) = Except.error DomainError.outOfRange ∧
    evaluate_state 90000 = Except.error DomainError.outOfRange := by
  have hmain : ∀ a : ℝ, (∃ s, evaluate_state a = Except.ok s) ↔ (0 ≤ a ∧ a ≤ 86000) := by
    intro a
    by_cases hc : a < 0 ∨ 86000 < a
    · unfold evaluate_state
      rw [if_pos hc]
      constructor
      · rintro ⟨s, hs⟩
        simp at hs
      · rintro ⟨h1, h2⟩
        rcases hc with hc | hc <;> linarith
    · unfold evaluate_state
      rw [if_neg hc]
      push_neg at hc
      exact iff_of_true ⟨_, rfl⟩ ⟨hc.1, hc.2⟩
  refine ⟨hmain, ?_, ?_, ?_⟩
  · intro q
    rw [validateInput_none_iff, hmain ((q : ℝ))]
    constructor
    · rintro ⟨h1, h2⟩
      exact ⟨by exact_mod_cast h1, by exact_mod_cast h2⟩
    · rintro ⟨h1, h2⟩
      exact ⟨by exact_mod_cast h1, by exact_mod_cast h2⟩
  · unfold evaluate_state
    rw [if_pos (Or.inl (by norm_num))]
  · unfold evaluate_state
    rw [if_pos (Or.inr (by norm_num))]

/-- The altitude round trip is exact in exact arithmetic. -/
theorem to_geometric_to_geopotential (h : ℚ) (h0 : 0 ≤ h) :
    to_geometric (to_geopotential h) = h := by
  have hd : (0 : ℚ) < 6356766 + h := by linarith
  have hH : to_geopotential h = 6356766 * h / (6356766 + h) := rfl
  have hr : (6356766 : ℚ) - to_geopotential h = 6356766 * 6356766 / (6356766 + h) := by
    rw [hH]
    field_simp
    ring
  have hne : (6356766 : ℚ) * 6356766 / (6356766 + h) ≠ 0 :=
    div_ne_zero (by norm_num) hd.ne'
  unfold to_geometric
  rw [hr, hH]
  field_simp
  ring

/-- C6: for every altitude in [0, 86,000],
`to_geometric(to_geopotential(h))` returns `h` within 1e-6 m (exactly, in
exact arithmetic), with `H = r·h/(r+h)`, `h = r·H/(r-H)`, `r = 6,356,766`. -/
theorem altitude_conversion_round_trip (h : ℚ) (h0 : 0 ≤ h) (h1 : h ≤ 86000) :
    |to_geometric (to_geopotential h) - h| ≤ 1 / 1000000 := by
  rw [to_geometric_to_geopotential h h0]
  simp

/-- Witness for `altitude_conversion_round_trip` at 11,000 m. -/
theorem altitude_conversion_round_trip_witness :
    0 ≤ (11000 : ℚ) ∧ (11000 : ℚ) ≤ 86000 ∧
      |to_geometric (to_geopotential 11000) - 11000| ≤ 1 / 1000000 :=
  ⟨by norm_num, by norm_num,
    altitude_conversion_round_trip 11000 (by norm_num) (by norm_num)⟩

/-- Both analytic pressure branches yield a positive value when the base
pressure, the base temperature and the local temperature are positive. -/
theorem pressureInLayer_pos {L : LayerDefinition} {h : ℝ}
    (hp : 0 < L.base_pressure_Pa) (ht : 0 < L.base_temperature_K)
    (hT : 0 < L.base_temperature_K +
      L.lapse_rate_K_per_m * (h - L.base_geopotential_altitude_m)) :
    0 < pressureInLayer L h := by
  unfold pressureInLayer
  split_ifs with hl
  · exact mul_pos hp (Real.exp_pos _)
  · exact mul_pos hp (Real.rpow_pos_of_pos (div_pos ht hT) _)

/-- Layer 1's derived base pressure is positive. -/
theorem layer1_base_pressure_pos : 0 < layer1.base_pressure_Pa := by
  have hb : layer1.base_pressure_Pa = pressureInLayer layer0 11000 := rfl
  rw [hb]
  exact pressureInLayer_pos (by norm_num [layer0]) (by norm_num [layer0])
    (by norm_num [layer0])

/-- Layer 2's derived base pressure is positive. -/
theorem layer2_base_pressure_pos : 0 < layer2.base_pressure_Pa := by
  have hb : layer2.base_pressure_Pa = pressureInLayer layer1 20000 := rfl
  rw [hb]
  exact pressureInLayer_pos layer1_base_pressure_pos (by norm_num [layer1])
    (by norm_num [layer1])

/-- The reference pressure is strictly positive on the heatmap's altitude
band [0, 20,000 m]. -/
theorem pressure_at_pos {h : ℝ} (h0 : 0 ≤ h) (h2 : h ≤ 20000) :
    0 < pressure_at h := by
  unfold pressure_at layer_for
  split_ifs with c1 c2 c3 c4 c5 c6 c7
  · exact pressureInLayer_pos (by norm_num [layer0]) (by norm_num [layer0])
      (by simp [layer0]; nlinarith)
  · exact pressureInLayer_pos layer1_base_pressure_pos (by norm_num [layer1])
      (by norm_num [layer1])
  · exact pressureInLayer_pos layer2_base_pressure_pos (by norm_num [layer2])
      (by simp [layer2]; nlinarith)
  · exact absurd h2 (by push_neg at c3; intro hcon; linarith)
  · exact absurd h2 (by push_neg at c4; intro hcon; linarith)
  · exact absurd h2 (by push_neg at c5; intro hcon; linarith)
  · exact absurd h2 (by push_neg at c6; intro hcon; linarith)
  · exact absurd h2 (by push_neg at c7; intro hcon; linarith)

/-- Every sample of `linspace 0 20000 30` lies in [0, 20000]. -/
theorem mem_linspace_bounds (x : ℝ) (hx : x ∈ linspace 0 20000 30) :
    0 ≤ x ∧ x ≤ 20000 := by
  unfold linspace at hx
  obtain ⟨i, hi', rfl⟩ := List.mem_map.mp hx
  have hi30 : i < 30 := by simpa using hi'
  have hi29 : (i : ℝ) ≤ 29 := by exact_mod_cast Nat.lt_succ_iff.mp hi30
  have hi0 : (0 : ℝ) ≤ (i : ℝ) := Nat.cast_nonneg i
  have heq : (0 : ℝ) + (20000 - 0) * (i : ℝ) / (((30 : ℕ) : ℝ) - 1) =
      20000 * (i : ℝ) / 29 := by
    push_cast
    ring
  rw [heq]
  constructor
  · positivity
  · rw [div_le_iff₀ (by norm_num : (0 : ℝ) < 29)]
    nlinarith

/-- C4: `heatmap(0, 20000, 30, 30)` returns 30 betas, 30 altitudes and a
30×30 `errors[altitude_index][beta_index]` matrix; every entry is the
`pct_error` of the exponential pressure against a strictly positive reference
pressure, hence a well-defined finite value. -/
theorem heatmap_30x30_shape :
    ((heatmap 0 20000 30 30).betas.length = 30) ∧
    ((heatmap 0 20000 30 30).altitudes.length = 30) ∧
    ((heatmap 0 20000 30 30).errors.length = 30) ∧
    (∀ row ∈ (heatmap 0 20000 30 30).errors, row.length = 30) ∧
    (∀ row ∈ (heatmap 0 20000 30 30).errors, ∀ e ∈ row,
      ∃ h b, h ∈ (heatmap 0 20000 30 30).altitudes ∧
        b ∈ (heatmap 0 20000 30 30).betas ∧
        e = pctErrorR (exponential_pressure h b) (pressure_at h) ∧
        0 < pressure_at h) := by
  refine ⟨by simp only [heatmap, linspace, List.length_map, List.length_range],
    by simp only [heatmap, linspace, List.length_map, List.length_range],
    by simp only [heatmap, linspace, List.length_map, List.length_range], ?_, ?_⟩
  · intro row hrow
    simp only [heatmap] at hrow
    obtain ⟨h, -, rfl⟩ := List.mem_map.mp hrow
    simp only [linspace, List.length_map, List.length_range]
  · intro row hrow e he
    simp only [heatmap] at hrow ⊢
    obtain ⟨h, hh, rfl⟩ := List.mem_map.mp hrow
    obtain ⟨b, hb, rfl⟩ := List.mem_map.mp he
    obtain ⟨hx0, hx2⟩ := mem_linspace_bounds h hh
    exact ⟨h, b, hh, hb, rfl, pressure_at_pos hx0 hx2⟩

/-- Witness for `heatmap_30x30_shape`: the first row of the 30×30 grid is a
row of the matrix and has 30 entries. -/
theorem heatmap_30x30_shape_witness :
    (heatmap 0 20000 30 30).errors.head! ∈ (heatmap 0 20000 30 30).errors ∧
    (heatmap 0 20000 30 30).errors.head!.length = 30 := by
  have hne : (heatmap 0 20000 30 30).errors ≠ [] := by
    simp [heatmap, linspace]
  have hmem := List.head!_mem_self hne
  exact ⟨hmem, heatmap_30x30_shape.2.2.2.1 _ hmem⟩

end Atmos
